import Mathlib

set_option maxRecDepth 8000

namespace AnalyticsPipeline

/-- A decoded JSON document, as produced by JavaScript's JSON.parse.
Numeric literals are kept as their source text: no validator in the
program inspects a numeric value (numbers only ever fail the
`typeof x === 'string'` checks), and JavaScript numbers are IEEE doubles
that a shallow embedding does not reproduce. Object fields keep their
textual order; duplicate keys are resolved by the last binding, as
JSON.parse does. -/
inductive Json where
  | null : Json
  | bool : Bool → Json
  | num : String → Json
  | str : String → Json
  | arr : List Json → Json
  | obj : List (String × Json) → Json

/-- JavaScript property access on a decoded payload (the destructuring
`const \x7b notificationId, ... \x7d = payload`): a key lookup on an object,
last duplicate winning as after JSON.parse; `none` models `undefined`.
Arrays decoded from JSON have no string-named own properties. -/
def jsProp : Json → String → Option Json
  | Json.obj fields, name => ((fields.filter (fun p => p.fst == name)).getLast?).map Prod.snd
  | _, _ => none

/-- The check `typeof x === 'string'`, keeping the string when it passes. -/
def asString : Option Json → Option String
  | some (Json.str s) => some s
  | _ => none

/-- isObjectPayload: `typeof value === 'object' && value !== null`. True for
decoded JSON objects and arrays (JavaScript arrays are typeof 'object'),
false for null, booleans, numbers and strings. -/
def isObjectPayload : Json → Bool
  | Json.obj _ => true
  | Json.arr _ => true
  | _ => false

inductive NotificationPriority where
  | LOW
  | NORMAL
  | HIGH
deriving DecidableEq

inductive AckStatus where
  | DELIVERED
  | FAILED
deriving DecidableEq

structure UserNotificationEvent where
  notificationId : String
  requestId : String
  title : String
  body : String
  priority : NotificationPriority
deriving DecidableEq

structure NotificationDeliveryAckEvent where
  requestId : String
  notificationId : String
  acknowledgedAt : String
  status : AckStatus
  failureReason : Option String
deriving DecidableEq

/-- The check `priority === 'LOW' || priority === 'NORMAL' || priority === 'HIGH'`:
strict, case-sensitive equality against the three literals; `undefined`
(a missing field) and non-strings compare unequal to every literal. -/
def parsePriority : Option Json → Option NotificationPriority
  | some (Json.str s) =>
      if s = "LOW" then some NotificationPriority.LOW
      else if s = "NORMAL" then some NotificationPriority.NORMAL
      else if s = "HIGH" then some NotificationPriority.HIGH
      else none
  | _ => none

/-- The check `status === 'DELIVERED' || status === 'FAILED'`. -/
def parseAckStatus : Option Json → Option AckStatus
  | some (Json.str s) =>
      if s = "DELIVERED" then some AckStatus.DELIVERED
      else if s = "FAILED" then some AckStatus.FAILED
      else none
  | _ => none

/-- The guard `typeof failureReason !== 'undefined' && typeof failureReason !== 'string'`
rejects the event; otherwise the (possibly absent) value is kept. -/
def parseFailureReason : Option Json → Option (Option String)
  | none => some none
  | some (Json.str s) => some (some s)
  | some _ => none

/-- parseUserNotification from the source: reject non-object payloads, then
destructure the five fields and require four strings plus an enumerated
priority; any failure rejects the whole event. -/
def parseUserNotification (payload : Json) : Option UserNotificationEvent :=
  if isObjectPayload payload then
    match asString (jsProp payload "notificationId"),
          asString (jsProp payload "requestId"),
          asString (jsProp payload "title"),
          asString (jsProp payload "body"),
          parsePriority (jsProp payload "priority") with
    | some nId, some rId, some t, some b, some p =>
        some { notificationId := nId, requestId := rId, title := t, body := b, priority := p }
    | _, _, _, _, _ => none
  else none

/-- parseDeliveryAck from the source: reject non-object payloads, require
three string fields and an enumerated status, and reject a present but
non-string failureReason. -/
def parseDeliveryAck (payload : Json) : Option NotificationDeliveryAckEvent :=
  if isObjectPayload payload then
    match asString (jsProp payload "requestId"),
          asString (jsProp payload "notificationId"),
          asString (jsProp payload "acknowledgedAt"),
          parseAckStatus (jsProp payload "status"),
          parseFailureReason (jsProp payload "failureReason") with
    | some rId, some nId, some ackAt, some st, some fr =>
        some { requestId := rId, notificationId := nId, acknowledgedAt := ackAt,
               status := st, failureReason := fr }
    | _, _, _, _, _ => none
  else none

/-- JSON insignificant whitespace: space, tab, line feed, carriage return. -/
def isJsonWs (c : Char) : Bool :=
  c == ' ' || c == '\t' || c == '\n' || c == '\r'

def skipWs : List Char → List Char
  | [] => []
  | c :: rest => if isJsonWs c then skipWs rest else c :: rest

def hexVal (c : Char) : Option Nat :=
  if '0' ≤ c ∧ c ≤ '9' then some (c.toNat - '0'.toNat)
  else if 'a' ≤ c ∧ c ≤ 'f' then some (c.toNat - 'a'.toNat + 10)
  else if 'A' ≤ c ∧ c ≤ 'F' then some (c.toNat - 'A'.toNat + 10)
  else none

/-- Body of a JSON string literal, after its opening quote: plain
characters, the eight single-character escapes and the \uXXXX escape;
an unescaped control character or an unterminated literal fails. -/
def parseStringRest (acc : List Char) : List Char → Option (String × List Char)
  | [] => none
  | c :: rest =>
    if c == '"' then some (⟨acc.reverse⟩, rest)
    else if c == '\\' then
      match rest with
      | [] => none
      | e :: rest2 =>
        if e == '"' then parseStringRest ('"' :: acc) rest2
        else if e == '\\' then parseStringRest ('\\' :: acc) rest2
        else if e == '/' then parseStringRest ('/' :: acc) rest2
        else if e == 'b' then parseStringRest (Char.ofNat 8 :: acc) rest2
        else if e == 'f' then parseStringRest (Char.ofNat 12 :: acc) rest2
        else if e == 'n' then parseStringRest ('\n' :: acc) rest2
        else if e == 'r' then parseStringRest ('\r' :: acc) rest2
        else if e == 't' then parseStringRest ('\t' :: acc) rest2
        else if e == 'u' then
          match rest2 with
          | h1 :: h2 :: h3 :: h4 :: rest3 =>
            match hexVal h1, hexVal h2, hexVal h3, hexVal h4 with
            | some a, some b, some c2, some d =>
                parseStringRest (Char.ofNat (((a * 16 + b) * 16 + c2) * 16 + d) :: acc) rest3
            | _, _, _, _ => none
          | _ => none
        else none
    else if c.toNat < 32 then none
    else parseStringRest (c :: acc) rest

def takeDigits : List Char → List Char × List Char
  | [] => ([], [])
  | c :: rest =>
    if c.isDigit then
      let p := takeDigits rest
      (c :: p.fst, p.snd)
    else ([], c :: rest)

/-- A JSON numeric literal: optional minus, an integer part without a
leading zero (unless it is exactly zero), an optional fraction and an
optional exponent; the literal is returned as text (see `Json.num`). -/
def parseNumberLit (cs : List Char) : Option (String × List Char) :=
  let headParts : List Char × List Char :=
    match cs with
    | '-' :: r => (['-'], r)
    | _ => ([], cs)
  match headParts.snd with
  | [] => none
  | c :: rest =>
    if !c.isDigit then none
    else
      let intParts : List Char × List Char :=
        if c == '0' then ([c], rest)
        else
          let p := takeDigits rest
          (c :: p.fst, p.snd)
      let fracParts : Option (List Char × List Char) :=
        match intParts.snd with
        | '.' :: fr =>
          match takeDigits fr with
          | ([], _) => none
          | (ds, r) => some ('.' :: ds, r)
        | _ => some ([], intParts.snd)
      match fracParts with
      | none => none
      | some (fracDs, cs3) =>
        let expParts : Option (List Char × List Char) :=
          match cs3 with
          | e :: er =>
            if e == 'e' || e == 'E' then
              let signParts : List Char × List Char :=
                match er with
                | s :: r2 => if s == '+' || s == '-' then ([s], r2) else ([], s :: r2)
                | [] => ([], [])
              match takeDigits signParts.snd with
              | ([], _) => none
              | (ds, r) => some (e :: (signParts.fst ++ ds), r)
            else some ([], cs3)
          | [] => some ([], cs3)
        match expParts with
        | none => none
        | some (expDs, cs4) =>
            some (⟨headParts.fst ++ intParts.fst ++ fracDs ++ expDs⟩, cs4)

mutual

/-- A single JSON value, fuel-bounded; the scrutinised text has already had
its leading whitespace skipped. -/
def parseVal : Nat → List Char → Option (Json × List Char)
  | 0, _ => none
  | Nat.succ fuel, cs =>
    match cs with
    | [] => none
    | c :: rest =>
      if c == '"' then (parseStringRest [] rest).map (fun p => (Json.str p.fst, p.snd))
      else if c == '{' then
        match skipWs rest with
        | '}' :: r2 => some (Json.obj [], r2)
        | r2 => parseMembers fuel r2 []
      else if c == '[' then
        match skipWs rest with
        | ']' :: r2 => some (Json.arr [], r2)
        | r2 => parseElems fuel r2 []
      else if c == 't' then
        match cs with
        | 't' :: 'r' :: 'u' :: 'e' :: r => some (Json.bool true, r)
        | _ => none
      else if c == 'f' then
        match cs with
        | 'f' :: 'a' :: 'l' :: 's' :: 'e' :: r => some (Json.bool false, r)
        | _ => none
      else if c == 'n' then
        match cs with
        | 'n' :: 'u' :: 'l' :: 'l' :: r => some (Json.null, r)
        | _ => none
      else (parseNumberLit cs).map (fun p => (Json.num p.fst, p.snd))

/-- The members of a non-empty JSON object, after its opening brace. -/
def parseMembers : Nat → List Char → List (String × Json) → Option (Json × List Char)
  | 0, _, _ => none
  | Nat.succ fuel, cs, acc =>
    match cs with
    | '"' :: rest =>
      match parseStringRest [] rest with
      | none => none
      | some (key, r1) =>
        match skipWs r1 with
        | ':' :: r2 =>
          match parseVal fuel (skipWs r2) with
          | none => none
          | some (v, r3) =>
            match skipWs r3 with
            | ',' :: r4 => parseMembers fuel (skipWs r4) (acc ++ [(key, v)])
            | '}' :: r4 => some (Json.obj (acc ++ [(key, v)]), r4)
            | _ => none
        | _ => none
    | _ => none

/-- The elements of a non-empty JSON array, after its opening bracket. -/
def parseElems : Nat → List Char → List Json → Option (Json × List Char)
  | 0, _, _ => none
  | Nat.succ fuel, cs, acc =>
    match parseVal fuel cs with
    | none => none
    | some (v, r1) =>
      match skipWs r1 with
      | ',' :: r2 => parseElems fuel (skipWs r2) (acc ++ [v])
      | ']' :: r2 => some (Json.arr (acc ++ [v]), r2)
      | _ => none

end

/-- parseJsonPayload: `JSON.parse(payload.toString('utf-8'))` inside
try/catch — the payload text either parses as a single JSON document
(surrounding whitespace allowed, no trailing garbage) or yields `none`,
the decode failure. The fuel bound exceeds the deepest possible call
chain, in which every two recursive steps consume at least one
character. -/
def parseJsonPayload (payload : String) : Option Json :=
  let cs := skipWs payload.toList
  match parseVal (2 * cs.length + 2) cs with
  | some (v, rest) => if (skipWs rest).isEmpty then some v else none
  | none => none

/-- Default topic names from the configuration block. -/
def userNotificationTopic : String := "notification/user"

def notificationAckTopic : String := "notification/ack"

structure NotificationStats where
  received : Nat
  ackDelivered : Nat
  ackFailed : Nat
deriving DecidableEq

/-- notificationStats as initialised at startup. -/
def notificationStats : NotificationStats :=
  { received := 0, ackDelivered := 0, ackFailed := 0 }

/-- What the message handler did with one inbound message, mirroring its
early returns: the two logged drop branches, the three counted branches,
and the silent fall-through for an unknown topic. -/
inductive DispatchOutcome where
  | decodeFailure
  | invalidUserNotification
  | invalidDeliveryAck
  | countedReceived
  | countedAck (status : AckStatus)
  | ignoredTopic
deriving DecidableEq

/-- The body of `client.on('message', ...)`: decode, route by exact topic
string, validate, and mutate the one counter selected by the event kind.
The function is total — every branch returns, so no inbound message can
terminate the process. -/
def dispatchMessage (topic : String) (payload : String) (stats : NotificationStats) :
    NotificationStats × DispatchOutcome :=
  match parseJsonPayload payload with
  | none => (stats, DispatchOutcome.decodeFailure)
  | some parsed =>
    if topic = userNotificationTopic then
      match parseUserNotification parsed with
      | none => (stats, DispatchOutcome.invalidUserNotification)
      | some _ =>
          ({ stats with received := stats.received + 1 }, DispatchOutcome.countedReceived)
    else if topic = notificationAckTopic then
      match parseDeliveryAck parsed with
      | none => (stats, DispatchOutcome.invalidDeliveryAck)
      | some event =>
        match event.status with
        | AckStatus.DELIVERED =>
            ({ stats with ackDelivered := stats.ackDelivered + 1 },
             DispatchOutcome.countedAck AckStatus.DELIVERED)
        | AckStatus.FAILED =>
            ({ stats with ackFailed := stats.ackFailed + 1 },
             DispatchOutcome.countedAck AckStatus.FAILED)
    else (stats, DispatchOutcome.ignoredTopic)

/-- Days since 1970-01-01 of the first day of the given month, plus a day
offset; the civil-calendar arithmetic that realises ECMAScript MakeDay.
Because the formula is affine in the day argument, a day count past the
end of the month rolls into the following month, exactly as MakeDay
specifies. -/
def daysFromCivil (y m d : Int) : Int :=
  let y1 := if m ≤ 2 then y - 1 else y
  let era := y1.fdiv 400
  let yoe := y1 - era * 400
  let doy := ((153 * (m + (if 2 < m then (-3 : Int) else 9)) + 2).fdiv 5) + d - 1
  let doe := yoe * 365 + yoe.fdiv 4 - yoe.fdiv 100 + doy
  era * 146097 + doe - 719468

/-- The inverse of `daysFromCivil`: year, month and day of a day count
since the epoch, as used by Date.prototype.toISOString. -/
def civilFromDays (z : Int) : Int × Int × Int :=
  let z1 := z + 719468
  let era := z1.fdiv 146097
  let doe := z1 - era * 146097
  let yoe := (doe - doe.fdiv 1460 + doe.fdiv 36524 - doe.fdiv 146096).fdiv 365
  let y := yoe + era * 400
  let doy := doe - (365 * yoe + yoe.fdiv 4 - yoe.fdiv 100)
  let mp := (5 * doy + 2).fdiv 153
  let d := doy - (153 * mp + 2).fdiv 5 + 1
  let m := mp + (if mp < 10 then (3 : Int) else -9)
  (if m ≤ 2 then y + 1 else y, m, d)

/-- The step `new Date(value + 'T00:00:00.000Z')` for a string already known
to be four digits, hyphen, two digits, hyphen, two digits, returned as days
since the epoch (the time-of-day part is fixed at midnight UTC). The Date
Time String Format grammar constrains MM to 01..12 and DD to 01..31 —
anything outside yields an invalid Date, i.e. NaN, here `none`; within the
grammar, MakeDay rolls a day count past the end of the month into the
following month, and the round-trip comparison below is what rejects such
strings. -/
def jsParseIsoMidnight (y m d : Int) : Option Int :=
  if 1 ≤ m ∧ m ≤ 12 ∧ 1 ≤ d ∧ d ≤ 31 then
    some (daysFromCivil y m 1 + (d - 1))
  else none

def digitVal (c : Char) : Int := Int.ofNat (c.toNat - '0'.toNat)

def pad2 (n : Int) : String := (if n < 10 then "0" else "") ++ toString n

def pad4 (n : Int) : String :=
  (if n < 10 then "000" else if n < 100 then "00" else if n < 1000 then "0" else "") ++ toString n

/-- The step `parsed.toISOString().slice(0, 10)`: the day formatted back as
a YYYY-MM-DD string (all reachable years lie in 0..9999, where
toISOString uses the plain four-digit form). -/
def isoDateString (days : Int) : String :=
  match civilFromDays days with
  | (y, m, d) => pad4 y ++ "-" ++ pad2 m ++ "-" ++ pad2 d

/-- The regex gate `^\d\x7b4\x7d-\d\x7b2\x7d-\d\x7b2\x7d$`, returning the three numeric
components when the string matches. -/
def dateShapeComponents (value : String) : Option (Int × Int × Int) :=
  match value.toList with
  | [y1, y2, y3, y4, h1, m1, m2, h2, d1, d2] =>
    if y1.isDigit && y2.isDigit && y3.isDigit && y4.isDigit && h1 == '-' &&
        m1.isDigit && m2.isDigit && h2 == '-' && d1.isDigit && d2.isDigit then
      some (((digitVal y1 * 10 + digitVal y2) * 10 + digitVal y3) * 10 + digitVal y4,
            digitVal m1 * 10 + digitVal m2,
            digitVal d1 * 10 + digitVal d2)
    else none
  | _ => none

/-- Whether the string matches the regex `^\d\x7b4\x7d-\d\x7b2\x7d-\d\x7b2\x7d$`. -/
def matchesDateShape (value : String) : Bool :=
  (dateShapeComponents value).isSome

/-- The regex gate followed by the UTC-midnight parse with its NaN check:
`none` when either step fails. -/
def parseDateString (value : String) : Option Int :=
  match dateShapeComponents value with
  | none => none
  | some (y, m, d) => jsParseIsoMidnight y m d

/-- isValidDateString from the source: the regex test, the parse of
value + 'T00:00:00.000Z' with its NaN check, and the toISOString
round-trip comparison against the original string. -/
def isValidDateString (value : String) : Bool :=
  match parseDateString value with
  | none => false
  | some days => isoDateString days == value

/-- A query-parameter value as decoded by the HTTP framework: absent, a
single string, an array of strings (the same parameter repeated), or a
nested structure (bracketed parameter syntax). Only the single-string
shape satisfies `typeof value === 'string'`. -/
inductive QueryValue where
  | absent
  | str (s : String)
  | strArray (xs : List String)
  | nested
deriving DecidableEq

/-- The check `typeof value === 'string'`, keeping the string. -/
def queryString : QueryValue → Option String
  | QueryValue.str s => some s
  | _ => none

/-- readDateQueryParam from the source: `null` unless the parameter decoded
to a single string that passes isValidDateString. -/
def readDateQueryParam (value : QueryValue) : Option String :=
  match value with
  | QueryValue.str s => if isValidDateString s then some s else none
  | _ => none

def trendIntervals : List String := ["DAY", "WEEK", "MONTH"]

/-- The response bodies the three handlers can produce. The numeric stub
constants (totalOrders, grossRevenue, avgOrderValue, the trend point and
the tier counts) are fixed JavaScript float literals carried verbatim by
every 200 response; only the echoed query parameters vary, so only they
are modelled. -/
inductive ResponseBody where
  | errorMessage (error : String)
  | dailySummary (date : String)
  | trendPoints (fromDate toDate interval : String)
  | tierDistribution (date : String)
deriving DecidableEq

structure HttpResponse where
  status : Nat
  body : ResponseBody
deriving DecidableEq

/-- GET /analytics/orders/daily-summary: a non-string `date` parameter is
coerced to the empty string, which then fails validation. -/
def dailySummaryHandler (dateParam : QueryValue) : HttpResponse :=
  let date := match queryString dateParam with
    | some s => s
    | none => ""
  if !isValidDateString date then
    { status := 400, body := ResponseBody.errorMessage "Invalid or missing date query parameter" }
  else
    { status := 200, body := ResponseBody.dailySummary date }

/-- GET /analytics/orders/trend. `from` and `to` go through
readDateQueryParam; `interval` is coerced to the empty string when
non-string and must sit in the interval set; then `from > to` (JavaScript
code-unit order; for these all-ASCII strings the same order as Lean's
String.lt) rejects. The guard `!from || !to` of the source is the `none`
check here: readDateQueryParam can never return the one falsy string `''`,
because `''` fails the regex gate. -/
def trendHandler (fromParam toParam intervalParam : QueryValue) : HttpResponse :=
  let fromDate := readDateQueryParam fromParam
  let toDate := readDateQueryParam toParam
  let interval := match queryString intervalParam with
    | some s => s
    | none => ""
  match fromDate, toDate with
  | some f, some t =>
    if !(trendIntervals.contains interval) then
      { status := 400, body := ResponseBody.errorMessage "Invalid query parameters" }
    else if t < f then
      { status := 400, body := ResponseBody.errorMessage "Invalid query parameters" }
    else
      { status := 200, body := ResponseBody.trendPoints f t interval }
  | _, _ => { status := 400, body := ResponseBody.errorMessage "Invalid query parameters" }

/-- GET /analytics/customers/tier-distribution. -/
def tierDistributionHandler (dateParam : QueryValue) : HttpResponse :=
  match readDateQueryParam dateParam with
  | none => { status := 400, body := ResponseBody.errorMessage "Invalid query parameters" }
  | some date => { status := 200, body := ResponseBody.tierDistribution date }

/-- Spec wording: `priority` is exactly one of the three case-sensitive
literals LOW, NORMAL, HIGH. -/
def isPriorityLiteral : Option Json → Bool
  | some (Json.str s) => s == "LOW" || s == "NORMAL" || s == "HIGH"
  | _ => false

/-- Spec wording: `status` is exactly one of the two literals. -/
def isStatusLiteral : Option Json → Bool
  | some (Json.str s) => s == "DELIVERED" || s == "FAILED"
  | _ => false

/-- Spec wording for the optional field: if `failureReason` is absent the
event is still valid; if present it must be a string. -/
def failureReasonOk : Option Json → Bool
  | none => true
  | some (Json.str _) => true
  | some _ => false

/-- Spec wording for the user-notification schema: a non-null keyed
structure whose five required fields are present with the required types,
`priority` being one of the three enumerated literals. -/
def userNotificationWellFormed (payload : Json) : Bool :=
  isObjectPayload payload &&
  (asString (jsProp payload "notificationId")).isSome &&
  (asString (jsProp payload "requestId")).isSome &&
  (asString (jsProp payload "title")).isSome &&
  (asString (jsProp payload "body")).isSome &&
  isPriorityLiteral (jsProp payload "priority")

/-- Spec wording for the delivery-ack schema: the four required fields
present with the required types, `status` one of the two literals, and
`failureReason` absent or a string. -/
def deliveryAckWellFormed (payload : Json) : Bool :=
  isObjectPayload payload &&
  (asString (jsProp payload "requestId")).isSome &&
  (asString (jsProp payload "notificationId")).isSome &&
  (asString (jsProp payload "acknowledgedAt")).isSome &&
  isStatusLiteral (jsProp payload "status") &&
  failureReasonOk (jsProp payload "failureReason")

/-- The key list of an object payload. -/
def objKeys : Json → List String
  | Json.obj fields => fields.map Prod.fst
  | _ => []

/-- The five required fields the user-notification schema names. -/
def requiredUserNotificationFields : List String :=
  ["notificationId", "requestId", "title", "body", "priority"]

/-- A payload carrying the five required fields correctly typed plus a
sixth field the schema does not name. -/
def extraFieldUserNotification : Json :=
  Json.obj [("notificationId", Json.str "n-1"), ("requestId", Json.str "r-1"),
            ("title", Json.str "t"), ("body", Json.str "b"),
            ("priority", Json.str "LOW"), ("extra", Json.bool true)]

/-- A well-formed user-notification wire payload. -/
def sampleUserNotificationJson : String :=
  "\x7b\"notificationId\":\"n-1\",\"requestId\":\"r-1\",\"title\":\"hi\",\"body\":\"msg\",\"priority\":\"LOW\"\x7d"

/-- The decoded form of `sampleUserNotificationJson`. -/
def sampleUserNotificationValue : Json :=
  Json.obj [("notificationId", Json.str "n-1"), ("requestId", Json.str "r-1"),
            ("title", Json.str "hi"), ("body", Json.str "msg"),
            ("priority", Json.str "LOW")]

/-- A well-formed DELIVERED acknowledgement wire payload. -/
def sampleDeliveredAckJson : String :=
  "\x7b\"requestId\":\"r-1\",\"notificationId\":\"n-1\",\"acknowledgedAt\":\"2023-03-15T10:00:00Z\",\"status\":\"DELIVERED\"\x7d"

/-- The decoded form of `sampleDeliveredAckJson`. -/
def sampleDeliveredAckValue : Json :=
  Json.obj [("requestId", Json.str "r-1"), ("notificationId", Json.str "n-1"),
            ("acknowledgedAt", Json.str "2023-03-15T10:00:00Z"),
            ("status", Json.str "DELIVERED")]

/-- A well-formed FAILED acknowledgement wire payload. -/
def sampleFailedAckJson : String :=
  "\x7b\"requestId\":\"r-2\",\"notificationId\":\"n-2\",\"acknowledgedAt\":\"2023-03-15T10:01:00Z\",\"status\":\"FAILED\",\"failureReason\":\"timeout\"\x7d"

/-- The decoded form of `sampleFailedAckJson`. -/
def sampleFailedAckValue : Json :=
  Json.obj [("requestId", Json.str "r-2"), ("notificationId", Json.str "n-2"),
            ("acknowledgedAt", Json.str "2023-03-15T10:01:00Z"),
            ("status", Json.str "FAILED"), ("failureReason", Json.str "timeout")]

/-- A payload that parses as JSON but fails the user-notification schema:
the notificationId field is a number. -/
def invalidUserNotificationJson : String :=
  "\x7b\"notificationId\":42,\"requestId\":\"r-1\",\"title\":\"hi\",\"body\":\"msg\",\"priority\":\"LOW\"\x7d"

/-- The decoded form of `invalidUserNotificationJson`. -/
def invalidUserNotificationValue : Json :=
  Json.obj [("notificationId", Json.num "42"), ("requestId", Json.str "r-1"),
            ("title", Json.str "hi"), ("body", Json.str "msg"),
            ("priority", Json.str "LOW")]

/-- A payload that parses as JSON but fails the delivery-ack schema: the
status field carries a value outside the enumeration. -/
def invalidAckJson : String :=
  "\x7b\"requestId\":\"r-1\",\"notificationId\":\"n-1\",\"acknowledgedAt\":\"ts\",\"status\":\"PENDING\"\x7d"

/-- The decoded form of `invalidAckJson`. -/
def invalidAckValue : Json :=
  Json.obj [("requestId", Json.str "r-1"), ("notificationId", Json.str "n-1"),
            ("acknowledgedAt", Json.str "ts"), ("status", Json.str "PENDING")]

theorem parsePriority_isSome (v : Option Json) :
    (parsePriority v).isSome = isPriorityLiteral v := by
  cases v with
  | none => rfl
  | some j =>
    cases j with
    | str s =>
      simp only [parsePriority, isPriorityLiteral]
      by_cases h1 : s = "LOW"
      · simp [h1]
      · by_cases h2 : s = "NORMAL"
        · simp [h1, h2]
        · by_cases h3 : s = "HIGH" <;> simp [h1, h2, h3]
    | null => rfl
    | bool b => rfl
    | num s => rfl
    | arr xs => rfl
    | obj fs => rfl

theorem parseAckStatus_isSome (v : Option Json) :
    (parseAckStatus v).isSome = isStatusLiteral v := by
  cases v with
  | none => rfl
  | some j =>
    cases j with
    | str s =>
      simp only [parseAckStatus, isStatusLiteral]
      by_cases h1 : s = "DELIVERED"
      · simp [h1]
      · by_cases h2 : s = "FAILED" <;> simp [h1, h2]
    | null => rfl
    | bool b => rfl
    | num s => rfl
    | arr xs => rfl
    | obj fs => rfl

theorem parseFailureReason_isSome (v : Option Json) :
    (parseFailureReason v).isSome = failureReasonOk v := by
  cases v with
  | none => rfl
  | some j => cases j <;> rfl

/-- C1: for every inbound message carrying a valid UserNotificationEvent on
the user-notification topic, dispatch increments `received` by exactly 1
and leaves `ackDelivered` and `ackFailed` unchanged; for every valid
NotificationDeliveryAckEvent on the acknowledgement topic, dispatch
increments `ackDelivered` by exactly 1 when status = DELIVERED and
`ackFailed` by exactly 1 when status = FAILED, leaving `received` and the
other ack counter unchanged. -/
theorem dispatch_counts_valid_events :
    (∀ payload stats parsed event,
      parseJsonPayload payload = some parsed →
      parseUserNotification parsed = some event →
      (dispatchMessage userNotificationTopic payload stats).fst =
        { received := stats.received + 1, ackDelivered := stats.ackDelivered,
          ackFailed := stats.ackFailed }) ∧
    (∀ payload stats parsed event,
      parseJsonPayload payload = some parsed →
      parseDeliveryAck parsed = some event →
      ((event.status = AckStatus.DELIVERED →
        (dispatchMessage notificationAckTopic payload stats).fst =
          { received := stats.received, ackDelivered := stats.ackDelivered + 1,
            ackFailed := stats.ackFailed }) ∧
       (event.status = AckStatus.FAILED →
        (dispatchMessage notificationAckTopic payload stats).fst =
          { received := stats.received, ackDelivered := stats.ackDelivered,
            ackFailed := stats.ackFailed + 1 }))) := by
  constructor
  · intro payload stats parsed event hp hv
    simp [dispatchMessage, hp, hv]
  · intro payload stats parsed event hp hv
    have hne : ¬ (notificationAckTopic = userNotificationTopic) := by decide
    constructor <;> intro hs <;> simp [dispatchMessage, hp, hne, hv, hs]

/-- Witness for `dispatch_counts_valid_events` at three concrete wire
messages, starting from the startup counters. -/
theorem dispatch_counts_valid_events_witness :
    (dispatchMessage userNotificationTopic sampleUserNotificationJson notificationStats).fst =
      { received := 1, ackDelivered := 0, ackFailed := 0 } ∧
    (dispatchMessage notificationAckTopic sampleDeliveredAckJson notificationStats).fst =
      { received := 0, ackDelivered := 1, ackFailed := 0 } ∧
    (dispatchMessage notificationAckTopic sampleFailedAckJson notificationStats).fst =
      { received := 0, ackDelivered := 0, ackFailed := 1 } := by
  refine ⟨?_, ?_, ?_⟩
  · exact dispatch_counts_valid_events.1 sampleUserNotificationJson notificationStats
      sampleUserNotificationValue
      { notificationId := "n-1", requestId := "r-1", title := "hi", body := "msg",
        priority := NotificationPriority.LOW } rfl rfl
  · exact (dispatch_counts_valid_events.2 sampleDeliveredAckJson notificationStats
      sampleDeliveredAckValue
      { requestId := "r-1", notificationId := "n-1", acknowledgedAt := "2023-03-15T10:00:00Z",
        status := AckStatus.DELIVERED, failureReason := none } rfl rfl).1 rfl
  · exact (dispatch_counts_valid_events.2 sampleFailedAckJson notificationStats
      sampleFailedAckValue
      { requestId := "r-2", notificationId := "n-2", acknowledgedAt := "2023-03-15T10:01:00Z",
        status := AckStatus.FAILED, failureReason := some "timeout" } rfl rfl).2 rfl

/-- C2: a message whose payload fails to decode, or decodes but fails the
schema validation of its topic, is dropped with all three counters
unchanged; dispatch is a total function, so no such failure terminates the
process. -/
theorem dispatch_drops_invalid_messages :
    (∀ topic payload stats, parseJsonPayload payload = none →
      (dispatchMessage topic payload stats).fst = stats) ∧
    (∀ payload parsed stats, parseJsonPayload payload = some parsed →
      parseUserNotification parsed = none →
      (dispatchMessage userNotificationTopic payload stats).fst = stats) ∧
    (∀ payload parsed stats, parseJsonPayload payload = some parsed →
      parseDeliveryAck parsed = none →
      (dispatchMessage notificationAckTopic payload stats).fst = stats) := by
  refine ⟨?_, ?_, ?_⟩
  · intro topic payload stats hp
    simp [dispatchMessage, hp]
  · intro payload parsed stats hp hv
    simp [dispatchMessage, hp, hv]
  · intro payload parsed stats hp hv
    have hne : ¬ (notificationAckTopic = userNotificationTopic) := by decide
    simp [dispatchMessage, hp, hne, hv]

/-- Witness for `dispatch_drops_invalid_messages`: undecodable bytes, a
wrong-typed field, and an out-of-enumeration status all leave the startup
counters untouched. -/
theorem dispatch_drops_invalid_messages_witness :
    (dispatchMessage userNotificationTopic "not json" notificationStats).fst =
      notificationStats ∧
    (dispatchMessage userNotificationTopic invalidUserNotificationJson notificationStats).fst =
      notificationStats ∧
    (dispatchMessage notificationAckTopic invalidAckJson notificationStats).fst =
      notificationStats := by
  refine ⟨?_, ?_, ?_⟩
  · exact dispatch_drops_invalid_messages.1 userNotificationTopic "not json"
      notificationStats rfl
  · exact dispatch_drops_invalid_messages.2.1 invalidUserNotificationJson
      invalidUserNotificationValue notificationStats rfl rfl
  · exact dispatch_drops_invalid_messages.2.2 invalidAckJson
      invalidAckValue notificationStats rfl rfl

/-- C5: the three counters are initialised to zero at startup, are
naturals (hence non-negative), and each is monotonically non-decreasing
under every dispatch operation. -/
theorem stats_counters_monotone :
    notificationStats = { received := 0, ackDelivered := 0, ackFailed := 0 } ∧
    ∀ topic payload stats,
      stats.received ≤ (dispatchMessage topic payload stats).fst.received ∧
      stats.ackDelivered ≤ (dispatchMessage topic payload stats).fst.ackDelivered ∧
      stats.ackFailed ≤ (dispatchMessage topic payload stats).fst.ackFailed := by
  refine ⟨rfl, ?_⟩
  intro topic payload stats
  unfold dispatchMessage
  repeat' split
  all_goals refine ⟨?_, ?_, ?_⟩ <;> simp

/-- C3 (counterexample): a payload carrying the five required fields
correctly typed plus a sixth field `extra` is accepted by
parseUserNotification, although its key set deviates from exactly the five
required fields — the validator does not reject additional fields. -/
theorem user_notification_extra_field_accepted :
    (parseUserNotification extraFieldUserNotification).isSome = true ∧
    "extra" ∈ objKeys extraFieldUserNotification ∧
    "extra" ∉ requiredUserNotificationFields := by
  refine ⟨rfl, ?_, ?_⟩ <;> decide

/-- C3 (amended): parseUserNotification accepts a decoded value iff it is
a non-null keyed structure in which the five required fields are present
and correctly typed, with `priority` exactly one of the case-sensitive
literals LOW, NORMAL, HIGH; a missing required field, a wrong-typed
required field, or any other priority value invalidates the whole event,
while fields beyond the required five are ignored. -/
theorem user_notification_validator_spec :
    (∀ payload, (parseUserNotification payload).isSome = true ↔
      userNotificationWellFormed payload = true) ∧
    parseUserNotification (Json.obj [("notificationId", Json.str "n"),
      ("requestId", Json.str "r"), ("title", Json.str "t"), ("body", Json.str "b"),
      ("priority", Json.str "low")]) = none ∧
    parseUserNotification (Json.obj [("requestId", Json.str "r"),
      ("title", Json.str "t"), ("body", Json.str "b"),
      ("priority", Json.str "LOW")]) = none := by
  refine ⟨?_, rfl, rfl⟩
  intro payload
  cases ho : isObjectPayload payload with
  | false => simp [parseUserNotification, userNotificationWellFormed, ho]
  | true =>
    simp only [parseUserNotification, userNotificationWellFormed, ho, if_true,
      Bool.true_and]
    cases h1 : asString (jsProp payload "notificationId") <;>
    cases h2 : asString (jsProp payload "requestId") <;>
    cases h3 : asString (jsProp payload "title") <;>
    cases h4 : asString (jsProp payload "body") <;>
    cases h5 : parsePriority (jsProp payload "priority") <;>
      simp [← parsePriority_isSome, h5]

/-- C4: parseDeliveryAck accepts a decoded value iff the four required
fields are present and correctly typed with status exactly DELIVERED or
FAILED, and, for the optional failureReason field: absence is valid, and
presence with a non-string value invalidates the whole event. -/
theorem delivery_ack_validator_spec :
    (∀ payload, (parseDeliveryAck payload).isSome = true ↔
      deliveryAckWellFormed payload = true) ∧
    (parseDeliveryAck sampleDeliveredAckValue).isSome = true ∧
    parseDeliveryAck (Json.obj [("requestId", Json.str "r"),
      ("notificationId", Json.str "n"), ("acknowledgedAt", Json.str "ts"),
      ("status", Json.str "FAILED"), ("failureReason", Json.num "3")]) = none := by
  refine ⟨?_, rfl, rfl⟩
  intro payload
  cases ho : isObjectPayload payload with
  | false => simp [parseDeliveryAck, deliveryAckWellFormed, ho]
  | true =>
    simp only [parseDeliveryAck, deliveryAckWellFormed, ho, if_true,
      Bool.true_and]
    cases h1 : asString (jsProp payload "requestId") <;>
    cases h2 : asString (jsProp payload "notificationId") <;>
    cases h3 : asString (jsProp payload "acknowledgedAt") <;>
    cases h4 : parseAckStatus (jsProp payload "status") <;>
    cases h5 : parseFailureReason (jsProp payload "failureReason") <;>
      simp [← parseAckStatus_isSome, ← parseFailureReason_isSome, h4, h5]

/-- C6: dispatch reports a decode failure exactly when the payload bytes
do not parse as a JSON document; every payload that parses proceeds to
schema validation, so well-formed JSON is never reported as a decode
failure — the decode failure is distinct from the two schema-validation
failures. -/
theorem decode_failure_iff_unparseable :
    (∀ topic payload stats,
      (dispatchMessage topic payload stats).snd = DispatchOutcome.decodeFailure ↔
        parseJsonPayload payload = none) ∧
    parseJsonPayload "not json" = none ∧
    parseJsonPayload "\x7b\x7d" = some (Json.obj []) ∧
    parseJsonPayload "[1,2]" = some (Json.arr [Json.num "1", Json.num "2"]) ∧
    parseJsonPayload "\"ok\"" = some (Json.str "ok") ∧
    (dispatchMessage userNotificationTopic invalidUserNotificationJson notificationStats).snd =
      DispatchOutcome.invalidUserNotification := by
  refine ⟨?_, rfl, rfl, rfl, rfl, rfl⟩
  intro topic payload stats
  unfold dispatchMessage
  cases hp : parseJsonPayload payload with
  | none => simp
  | some parsed =>
    simp only [reduceCtorEq, iff_false]
    repeat' split
    all_goals simp

/-- C7: the date validator accepts a string iff it matches the
four-digit/two-digit/two-digit shape, parsing it as midnight UTC on that
calendar date succeeds, and re-serialising the parsed instant back to a
date string yields the identical input; in particular "2023-02-30",
"2023-13-01" and the empty string are invalid and "2023-03-15" is
valid. -/
theorem date_validator_spec :
    (∀ value, isValidDateString value = true ↔
      (matchesDateShape value = true ∧
       ∃ days, parseDateString value = some days ∧ isoDateString days = value)) ∧
    isValidDateString "2023-02-30" = false ∧
    isValidDateString "2023-13-01" = false ∧
    isValidDateString "2023-03-15" = true ∧
    isValidDateString "" = false := by
  refine ⟨?_, by decide, by decide, by decide, by decide⟩
  intro value
  cases hp : parseDateString value with
  | none => simp [isValidDateString, hp]
  | some days =>
    have hshape : matchesDateShape value = true := by
      unfold matchesDateShape
      unfold parseDateString at hp
      cases hc : dateShapeComponents value with
      | none => rw [hc] at hp; cases hp
      | some c => simp
    simp [isValidDateString, hp, hshape, beq_iff_eq]

theorem queryString_eq_some (v : QueryValue) (s : String) :
    queryString v = some s ↔ v = QueryValue.str s := by
  cases v <;> simp [queryString]

theorem readDateQueryParam_eq_some (v : QueryValue) (s : String) :
    readDateQueryParam v = some s ↔
      v = QueryValue.str s ∧ isValidDateString s = true := by
  cases v with
  | absent => simp [readDateQueryParam]
  | strArray xs => simp [readDateQueryParam]
  | nested => simp [readDateQueryParam]
  | str s' =>
    simp only [readDateQueryParam, QueryValue.str.injEq]
    by_cases hv : isValidDateString s' = true
    · simp only [hv, if_true, Option.some.injEq]
      constructor
      · intro h; subst h; exact ⟨rfl, hv⟩
      · intro h; exact h.1
    · rw [if_neg hv]
      constructor
      · intro h; cases h
      · rintro ⟨rfl, h⟩; exact absurd h hv

/-- C8: GET /analytics/orders/daily-summary answers 400 with the fixed
error body exactly when no valid `date` string parameter was supplied, and
otherwise 200 echoing the date; GET /analytics/orders/trend answers 400
with its fixed error body exactly when `from`, `to` or `interval` is
missing or invalid or `from` exceeds `to` in lexicographic string order,
and otherwise 200 echoing `from`, `to` and `interval`. -/
theorem analytics_endpoints_validation :
    (∀ dateParam,
      (dailySummaryHandler dateParam =
          { status := 400,
            body := ResponseBody.errorMessage "Invalid or missing date query parameter" } ↔
        ¬ ∃ s, queryString dateParam = some s ∧ isValidDateString s = true) ∧
      (∀ s, queryString dateParam = some s → isValidDateString s = true →
        dailySummaryHandler dateParam =
          { status := 200, body := ResponseBody.dailySummary s })) ∧
    (∀ fromParam toParam intervalParam,
      (trendHandler fromParam toParam intervalParam =
          { status := 400, body := ResponseBody.errorMessage "Invalid query parameters" } ↔
        ¬ ∃ f t i, readDateQueryParam fromParam = some f ∧
            readDateQueryParam toParam = some t ∧
            queryString intervalParam = some i ∧
            trendIntervals.contains i = true ∧ ¬ (t < f)) ∧
      (∀ f t i, readDateQueryParam fromParam = some f →
          readDateQueryParam toParam = some t →
          queryString intervalParam = some i →
          trendIntervals.contains i = true → ¬ (t < f) →
          trendHandler fromParam toParam intervalParam =
            { status := 200, body := ResponseBody.trendPoints f t i })) := by
  constructor
  · intro dateParam
    constructor
    · cases dateParam with
      | str s =>
        cases hv : isValidDateString s <;>
          simp [dailySummaryHandler, queryString, hv]
      | absent =>
        simp [dailySummaryHandler, queryString,
          show isValidDateString "" = false from rfl]
      | strArray xs =>
        simp [dailySummaryHandler, queryString,
          show isValidDateString "" = false from rfl]
      | nested =>
        simp [dailySummaryHandler, queryString,
          show isValidDateString "" = false from rfl]
    · intro s hq hv
      rw [queryString_eq_some] at hq
      subst hq
      simp [dailySummaryHandler, queryString, hv]
  · intro fromParam toParam intervalParam
    constructor
    · cases hf : readDateQueryParam fromParam with
      | none => simp [trendHandler, hf]
      | some f =>
        cases ht : readDateQueryParam toParam with
        | none => simp [trendHandler, hf, ht]
        | some t =>
          cases hi : queryString intervalParam with
          | none =>
            have hnmem : "" ∉ trendIntervals := by decide
            simp [trendHandler, hf, ht, hi, hnmem,
              show trendIntervals.contains "" = false from rfl]
          | some i =>
            cases hc : trendIntervals.contains i with
            | false =>
              have hnmem : i ∉ trendIntervals := by simpa using hc
              simp [trendHandler, hf, ht, hi, hc, hnmem]
            | true =>
              have hmem : i ∈ trendIntervals := by simpa using hc
              by_cases hlt : t < f
              · rw [String.lt_iff_toList_lt] at hlt
                simp [trendHandler, hf, ht, hi, hc, hmem,
                  String.lt_iff_toList_lt, hlt]
              · rw [String.lt_iff_toList_lt] at hlt
                simp [trendHandler, hf, ht, hi, hc, hmem,
                  String.lt_iff_toList_lt, hlt]
    · intro f t i hf ht hi hc hnlt
      have hmem : i ∈ trendIntervals := by simpa using hc
      rw [String.lt_iff_toList_lt] at hnlt
      simp [trendHandler, hf, ht, hi, hc, hmem, String.lt_iff_toList_lt, hnlt]
      exact le_of_not_lt hnlt

/-- Witness for `analytics_endpoints_validation`: the two 200 branches at
concrete valid parameters. -/
theorem analytics_endpoints_validation_witness :
    dailySummaryHandler (QueryValue.str "2023-03-15") =
      { status := 200, body := ResponseBody.dailySummary "2023-03-15" } ∧
    trendHandler (QueryValue.str "2023-03-01") (QueryValue.str "2023-03-10")
      (QueryValue.str "WEEK") =
      { status := 200,
        body := ResponseBody.trendPoints "2023-03-01" "2023-03-10" "WEEK" } := by
  constructor
  · exact (analytics_endpoints_validation.1 (QueryValue.str "2023-03-15")).2
      "2023-03-15" rfl (by decide)
  · exact (analytics_endpoints_validation.2 (QueryValue.str "2023-03-01")
      (QueryValue.str "2023-03-10") (QueryValue.str "WEEK")).2
      "2023-03-01" "2023-03-10" "WEEK" (by decide) (by decide) rfl
      (by decide) (by rw [String.lt_iff_toList_lt]; decide)

/-- C10: on each of the three analytics endpoints, a date-like query
parameter (`date`, `from` or `to`) whose decoded value is not a single
string — absent, repeated into an array, or a nested structure — is
treated as missing/invalid and the handler answers 400, never 200 and
never a server fault. -/
theorem non_string_date_params_rejected :
    ∀ param, (∀ s, param ≠ QueryValue.str s) →
      (dailySummaryHandler param).status = 400 ∧
      (∀ toParam intervalParam, (trendHandler param toParam intervalParam).status = 400) ∧
      (∀ fromParam intervalParam, (trendHandler fromParam param intervalParam).status = 400) ∧
      (tierDistributionHandler param).status = 400 := by
  intro param hns
  have hq : queryString param = none := by
    cases param with
    | str s => exact absurd rfl (hns s)
    | absent => rfl
    | strArray xs => rfl
    | nested => rfl
  have hr : readDateQueryParam param = none := by
    cases param with
    | str s => exact absurd rfl (hns s)
    | absent => rfl
    | strArray xs => rfl
    | nested => rfl
  refine ⟨?_, ?_, ?_, ?_⟩
  · simp [dailySummaryHandler, hq, show isValidDateString "" = false from rfl]
  · intro toParam intervalParam
    cases ht : readDateQueryParam toParam <;> simp [trendHandler, hr, ht]
  · intro fromParam intervalParam
    cases hf : readDateQueryParam fromParam <;> simp [trendHandler, hf, hr]
  · simp [tierDistributionHandler, hr]

/-- Witness for `non_string_date_params_rejected` at a twice-supplied
(array-decoded) parameter value. -/
theorem non_string_date_params_rejected_witness :
    (dailySummaryHandler (QueryValue.strArray ["2023-03-15", "2023-03-16"])).status = 400 ∧
    (trendHandler (QueryValue.strArray ["2023-03-15", "2023-03-16"])
      (QueryValue.str "2023-03-20") (QueryValue.str "DAY")).status = 400 ∧
    (trendHandler (QueryValue.str "2023-03-01")
      (QueryValue.strArray ["2023-03-15", "2023-03-16"])
      (QueryValue.str "DAY")).status = 400 ∧
    (tierDistributionHandler (QueryValue.strArray ["2023-03-15", "2023-03-16"])).status = 400 := by
  have h := non_string_date_params_rejected
    (QueryValue.strArray ["2023-03-15", "2023-03-16"]) (by intro s h; cases h)
  exact ⟨h.1, h.2.1 _ _, h.2.2.1 _ _, h.2.2.2⟩

end AnalyticsPipeline
